import Mathlib

/-!
Shallow embedding of the conversational SQL support bot (`app.py`): the
safety gate (`is_safe_sql`), the table heuristic (`detect_table`), the
escalation workflow (`create_and_send_issue`), the resilient mail send
(`send_mail_to_upstream`), and the Flask POST handler (`index`) modelled
as a pure step function over the per-browser session plus the
process-wide issue store.

Modelling conventions:
- Python strings are Lean `String`s; character-level operations
  (`lower`, `upper`, `strip`, the regex word class `\w`) are modelled on
  the ASCII fragment, which covers every keyword, phrase and SQL verb
  the source manipulates.
- External collaborators (the language model, the database, uuid
  generation, SMTP) are inputs of each turn: their outcomes are fields
  of `TurnInput`, with exceptions as `Except.error`.
- Emoji prefixes of the chat messages are elided from the message
  constants; the textual content is kept verbatim.
-/

namespace Bot

/-- ASCII word character: the regex class `\w` restricted to ASCII,
as used by the word boundaries in `WRITE_PATTERN`. -/
def isWordChar (c : Char) : Bool := c.isAlpha || c.isDigit || c == '_'

/-- The whitespace characters removed by Python `str.strip()`. -/
def isStripChar (c : Char) : Bool :=
  c == ' ' || c == '\t' || c == '\n' || c == '\r' || c == '\x0b' || c == '\x0c'

/-- Python `str.strip()` on a character list. -/
def trimChars (s : List Char) : List Char :=
  ((s.dropWhile isStripChar).reverse.dropWhile isStripChar).reverse

/-- Python `str.lower()` (ASCII fragment). -/
def lowerStr (s : String) : String := String.mk (s.data.map Char.toLower)

/-- Python `str.strip()`. -/
def stripStr (s : String) : String := String.mk (trimChars s.data)

/-- Case-insensitive match of the upper-case key `k` against the first
`k.length` characters of `s`. -/
def ciPrefixOf : List Char → List Char → Bool
  | [], _ => true
  | _ :: _, [] => false
  | k :: ks, c :: cs => (Char.toUpper c == k) && ciPrefixOf ks cs

/-- The character following a match of `k` at the front of `s` is not a
word character (the trailing `\b`). -/
def afterOk (k s : List Char) : Bool :=
  match s.drop k.length with
  | [] => true
  | c :: _ => !(isWordChar c)

/-- Scan `s` for an occurrence of the upper-case word `k` preceded and
followed by a word boundary; `prev` records whether the character just
before the current position is a word character. -/
def hasWholeWordFrom (k : List Char) : Bool → List Char → Bool
  | _, [] => false
  | prev, c :: cs =>
      (!prev && ciPrefixOf k (c :: cs) && afterOk k (c :: cs))
        || hasWholeWordFrom k (isWordChar c) cs

/-- `k` occurs in `s` as a case-insensitive whole word
(`re.search` of `\bk\b` with `re.IGNORECASE`). -/
def hasWholeWord (k s : List Char) : Bool := hasWholeWordFrom k false s

/-- The block list of `WRITE_PATTERN`. -/
def WRITE_KEYWORDS : List String :=
  ["INSERT", "UPDATE", "DELETE", "DROP", "TRUNCATE", "ALTER", "CREATE",
   "REPLACE", "GRANT", "REVOKE"]

/-- `WRITE_PATTERN.search(sql)`: some block-listed verb occurs in `sql`
as a case-insensitive whole word. -/
def writePatternSearch (sql : String) : Bool :=
  WRITE_KEYWORDS.any (fun k => hasWholeWord k.data sql.data)

/-- `is_safe_sql` from the source: reject on a `WRITE_PATTERN` hit, else
accept iff the stripped, upper-cased text starts with SELECT. -/
def is_safe_sql (sql : String) : Bool :=
  if writePatternSearch sql then false
  else List.isPrefixOf "SELECT".data ((trimChars sql.data).map Char.toUpper)

/-- `ORDER_KEYWORDS` from the source. -/
def ORDER_KEYWORDS : List String :=
  ["order", "orders", "order_id", "order header", "status", "consignment",
   "order_type", "creation_date", "ship_by_date", "deliver_by_date"]

/-- `SKU_KEYWORDS` from the source. -/
def SKU_KEYWORDS : List String :=
  ["sku", "sku_id", "stroke", "description", "tdept", "color", "item", "product"]

/-- `LOCATION_KEYWORDS` from the source. -/
def LOCATION_KEYWORDS : List String :=
  ["location", "warehouse", "zone", "site", "pick_sequence", "modes", "site_code"]

/-- `INVENTORY_KEYWORDS` from the source. -/
def INVENTORY_KEYWORDS : List String :=
  ["inventory", "stock", "qty_on_hand", "qty_allocated", "availability", "balance"]

/-- Substring containment, Python `needle in hay` on strings. -/
def containsSub (n : List Char) : List Char → Bool
  | [] => List.isPrefixOf n []
  | c :: cs => List.isPrefixOf n (c :: cs) || containsSub n cs

/-- `any(k in q for k in ks)`. -/
def anyKeywordIn (ks : List String) (q : List Char) : Bool :=
  ks.any (fun k => containsSub k.data q)

/-- `detect_table` from the source: lower-case the question, test the
four keyword sets in priority order, refine matches with a second set,
default to the order table. -/
def detect_table (question : String) : String :=
  let q := question.data.map Char.toLower
  if anyKeywordIn ORDER_KEYWORDS q then
    if anyKeywordIn SKU_KEYWORDS q then "order_header JOIN order_line"
    else "order_header"
  else if anyKeywordIn SKU_KEYWORDS q then
    if anyKeywordIn INVENTORY_KEYWORDS q then "sku JOIN inventory"
    else "sku"
  else if anyKeywordIn LOCATION_KEYWORDS q then
    if anyKeywordIn INVENTORY_KEYWORDS q then "location JOIN inventory"
    else "location"
  else if anyKeywordIn INVENTORY_KEYWORDS q then "inventory"
  else "order_header"

/-- Message roles of the chat transcript. -/
inductive Role where
  | user
  | assistant
  deriving DecidableEq, Repr

/-- One transcript entry. -/
structure Message where
  role : Role
  content : String
  deriving DecidableEq, Repr

/-- The two dialogue states of the conversation state machine. -/
inductive ChatState where
  | collect
  | confirm
  deriving DecidableEq, Repr

/-- The pair of artifact paths stored in `latest_files`. -/
structure FilePaths where
  csv : String
  excel : String
  deriving DecidableEq, Repr

/-- The per-browser session: transcript, dialogue state, pending query,
artifact paths. -/
structure Session where
  chat : List Message
  state : ChatState
  pending_sql : Option String
  latest_files : Option FilePaths
  deriving DecidableEq, Repr

/-- A materialized query result (the pandas DataFrame): column names and
rows of printed values. -/
structure DataFrame where
  cols : List String
  rows : List (List String)
  deriving DecidableEq, Repr

/-- An escalation record, as stored in `ISSUE_STORE`. -/
structure Issue where
  question : String
  sql : String
  table : String
  details : String
  status : String
  deriving DecidableEq, Repr

/-- The greeting installed by `reset_chat` (emoji and mojibake elided). -/
def greetingText : String :=
  "Hi I\x27m your AI Support Bot. Ask me anything about orders, SKUs, locations, or inventory."

/-- Acknowledgement appended on a close phrase. -/
def closedText : String :=
  "Chat session closed. You can start a new request anytime."

/-- Rejection message of the safety gate. -/
def unsafeText : String :=
  "I couldnt generate a safe SQL for that. Please rephrase."

/-- Confirmation prompt after a safe query was generated. -/
def confirmPromptText : String :=
  "I found a query for that. Do you want me to run it? (Yes/No)"

/-- Acknowledgement of a declined query. -/
def declineText : String :=
  "Okay, not running that query. Ask me another question."

/-- Follow-up prompt after delivering results. -/
def anotherText : String :=
  "Would you like to make another request or type \x27close chat\x27 to end?"

/-- The turn-level error message built from the caught exception text. -/
def errorText (e : String) : String := "Error: " ++ e

/-- Escalation message when the upstream mail was delivered. -/
def escalatedText (issue_id : String) : String :=
  "No data found. Issue **" ++ issue_id ++ "** escalated upstream."

/-- Escalation message when the upstream mail failed. -/
def escalateFailText (issue_id : String) : String :=
  "No data found, but failed to send email. Issue ID: " ++ issue_id

/-- Rendering of `df.head(20).to_html(...)`: the HTML itself is produced
by the pandas collaborator, modelled as a plain dump of the header and
the first 20 rows. -/
def previewHtml (df : DataFrame) : String :=
  String.intercalate " | " (df.cols ++ (df.rows.take 20).map (String.intercalate ", "))

/-- The transcript message carrying the preview. -/
def resultsText (preview : String) : String := "Here are the results:<br>" ++ preview

/-- The transcript message carrying the two download links. -/
def downloadText : String :=
  "<a href=\"/download/csv\">Download CSV</a> | <a href=\"/download/excel\">Download Excel</a>"

/-- `OUT_DIR`: the process temp directory joined with the fixed folder
name (the temp root is the file-store collaborator, modelled as /tmp). -/
def OUT_DIR : String := "/tmp/ai_it_support_outputs"

/-- `save_df_to_files`: both artifact paths share one fresh
`uuid4().hex` suffix, supplied as an input of the turn. -/
def save_df_to_files (uniqueHex : String) : FilePaths :=
  { csv := OUT_DIR ++ "/results_" ++ uniqueHex ++ ".csv"
    excel := OUT_DIR ++ "/results_" ++ uniqueHex ++ ".xlsx" }

/-- Result of `create_and_send_issue`: the updated issue store, the
returned triple (id, token, delivery flag), and the composed mail. -/
structure EscalationResult where
  store : List (String × Issue)
  issue_id : String
  convo_token : String
  subject : String
  body : String
  ok : Bool
  deriving Repr

/-- `create_and_send_issue`: mint the issue id and conversation token
from fresh uuid hex strings, record the issue with status open in the
process-wide store, compose the notification, then attempt delivery.
The `mail` collaborator receives the already-updated store, reflecting
that the record is inserted before the send; its boolean is the
delivery outcome. The subject's mojibake dash is elided. -/
def create_and_send_issue (store : List (String × Issue))
    (user_question sql table details : String)
    (issueHex tokenHex : String)
    (mail : String → String → List (String × Issue) → Bool) :
    EscalationResult :=
  let issue_id := String.mk (issueHex.data.take 8)
  let convo_token := String.mk (tokenHex.data.take 12)
  let issue : Issue :=
    { question := user_question, sql := sql, table := table
      details := details, status := "open" }
  let store2 := (issue_id, issue) :: store
  let subject := "[AI Chatbot] Missing Data Escalation " ++ table ++ " (" ++ issue_id ++ ")"
  let body := "Conversation token: " ++ convo_token ++ "\nUser Question: " ++ user_question
      ++ "\nSQL: " ++ sql ++ "\nDetails: " ++ details
  let ok := mail subject body store2
  { store := store2, issue_id := issue_id, convo_token := convo_token
    subject := subject, body := body, ok := ok }

/-- One POST request to `index`, together with the outcomes of the
collaborators consulted during that turn: the form fields, the
synthesizer outcome, the database outcome, the fresh uuid hex strings,
and the mail delivery outcome. -/
structure TurnInput where
  action : String
  message : String
  synth : Except String String
  db : Except String DataFrame
  fileHex : String
  issueHex : String
  tokenHex : String
  mailOk : Bool
  deriving Repr

/-- `reset_chat`: reinstall the greeting transcript, return to collect,
drop `pending_sql` and `latest_files`. -/
def reset_chat (_s : Session) : Session :=
  { chat := [{ role := .assistant, content := greetingText }]
    state := .collect, pending_sql := none, latest_files := none }

/-- `append_message`. -/
def append_message (s : Session) (role : Role) (content : String) : Session :=
  { s with chat := s.chat ++ [{ role := role, content := content }] }

/-- The freshly initialized session (what `reset_chat` installs). -/
def initialSession : Session :=
  reset_chat { chat := [], state := .collect, pending_sql := none, latest_files := none }

/-- The close phrases, matched against the lowered, stripped text. -/
def closePhrases : List String := ["close", "end", "stop", "bye", "exit", "close chat"]

/-- The affirmative answers accepted in confirm state. -/
def affirmPhrases : List String := ["yes", "y"]

/-- One POST turn of `index`: the conversation state machine. Returns
the updated process-wide issue store and the updated session. -/
def stepTurn (store : List (String × Issue)) (s : Session) (i : TurnInput) :
    List (String × Issue) × Session :=
  let user_text := stripStr i.message
  if closePhrases.contains (lowerStr user_text) then
    (store, reset_chat (append_message s .assistant closedText))
  else if i.action == "reset" then
    (store, reset_chat s)
  else if user_text == "" then
    (store, s)
  else
    let s1 := append_message s .user user_text
    match s.state with
    | .collect =>
      match i.synth with
      | .error e =>
          (store, { append_message s1 .assistant (errorText e) with state := .collect })
      | .ok sql =>
          if !(is_safe_sql sql) then
            (store, append_message s1 .assistant unsafeText)
          else
            let s2 := { s1 with pending_sql := some sql }
            let s3 := append_message s2 .assistant confirmPromptText
            (store, { s3 with state := .confirm })
    | .confirm =>
      if affirmPhrases.contains (lowerStr user_text) then
        match s.pending_sql with
        | none =>
            (store, { append_message s1 .assistant (errorText "invalid SQL") with state := .collect })
        | some sql =>
          match i.db with
          | .error e =>
              (store, { append_message s1 .assistant (errorText e) with state := .collect })
          | .ok df =>
            if df.rows.isEmpty then
              let r := create_and_send_issue store user_text sql (detect_table user_text)
                "No rows returned" i.issueHex i.tokenHex (fun _ _ _ => i.mailOk)
              let msg := if r.ok then escalatedText r.issue_id else escalateFailText r.issue_id
              (r.store, { append_message s1 .assistant msg with state := .collect })
            else
              let files := save_df_to_files i.fileHex
              let s2 := { s1 with latest_files := some files }
              let s3 := append_message s2 .assistant (resultsText (previewHtml df))
              let s4 := append_message s3 .assistant downloadText
              let s5 := append_message s4 .assistant anotherText
              (store, { s5 with state := .collect })
      else
        (store, { append_message s1 .assistant declineText with state := .collect })

/-- The `/download/<filetype>` route: the file path served from the
session's `latest_files`, `none` when unavailable. -/
def download_file (s : Session) (filetype : String) : Option String :=
  match s.latest_files with
  | none => none
  | some f =>
      if filetype == "csv" then some f.csv
      else if filetype == "excel" then some f.excel
      else none

/-- Reachability of a (issue store, session) pair from the freshly
initialized session by POST turns. -/
inductive Reachable : List (String × Issue) → Session → Prop where
  | init : Reachable [] initialSession
  | turn {g s} (h : Reachable g s) (i : TurnInput) :
      Reachable (stepTurn g s i).1 (stepTurn g s i).2

/-- SMTP-relevant environment configuration (each field an optional
environment string). -/
structure SmtpConfig where
  smtp_host : Option String
  smtp_user : Option String
  smtp_pass : Option String
  upstream_email : Option String
  smtp_use_ssl : Option String
  smtp_port : Option String
  deriving Repr

/-- Python truthiness of an optional environment string. -/
def truthyEnv : Option String → Bool
  | none => false
  | some s => !(s == "")

/-- Outcome of one SMTP connection attempt: delivered, a
connection-level failure from the caught tuple (socket.timeout,
SMTPConnectError, SMTPServerDisconnected, OSError), or an uncaught
exception. -/
inductive AttemptOutcome where
  | sent
  | connFail (err : String)
  | fatal (err : String)
  deriving DecidableEq, Repr

/-- One transport attempt configuration: SSL flag, host, port. -/
abbrev Attempt := Bool × String × Nat

/-- The attempt list built by `send_mail_to_upstream`: a single pinned
attempt when SMTP_PORT or SMTP_USE_SSL is set in the environment, else
encrypted-from-connect on 465 followed by STARTTLS on 587. -/
def mailAttempts (cfg : SmtpConfig) : List Attempt :=
  let host := cfg.smtp_host.getD "smtp.gmail.com"
  if truthyEnv cfg.smtp_port || !(cfg.smtp_use_ssl == none) then
    let use_ssl := ["1", "true", "yes"].contains (lowerStr (cfg.smtp_use_ssl.getD ""))
    let port := match cfg.smtp_port with
      | some p => if p == "" then (if use_ssl then 465 else 587) else p.toNat!
      | none => if use_ssl then 465 else 587
    [(use_ssl, host, port)]
  else
    [(true, host, 465), (false, host, 587)]

/-- The attempt loop of `send_mail_to_upstream`: try each configuration
in order, return true on the first delivery, fall through on a
connection-level failure, propagate any other exception. Also returns
the list of attempts actually tried. -/
def runAttempts (tryA : Attempt → AttemptOutcome) :
    List Attempt → Except String (Bool × List Attempt)
  | [] => .ok (false, [])
  | a :: rest =>
    match tryA a with
    | .sent => .ok (true, [a])
    | .connFail _ =>
        match runAttempts tryA rest with
        | .ok (b, tr) => .ok (b, a :: tr)
        | .error e => .error e
    | .fatal e => .error e

/-- `send_mail_to_upstream`: skip (returning false with no attempts)
when the SMTP credentials or the upstream address are missing, else run
the attempt list. Message composition and the recipient list do not
affect control flow and are not modelled. -/
def send_mail_to_upstream (cfg : SmtpConfig) (tryA : Attempt → AttemptOutcome) :
    Except String (Bool × List Attempt) :=
  if !(truthyEnv cfg.smtp_user && truthyEnv cfg.smtp_pass && truthyEnv cfg.upstream_email) then
    .ok (false, [])
  else
    runAttempts tryA (mailAttempts cfg)

/-- Boundary check at one side of a candidate occurrence: the adjacent
character, when there is one, is not a word character. -/
def boundaryOkB : Option Char → Bool
  | none => true
  | some c => !(isWordChar c)

/-- The before-boundary state of the scanner, expressed on the prefix
`p` already consumed: when `p` is empty the flag `prev` decides, else
its last character must not be a word character. -/
def prevOk (prev : Bool) (p : List Char) : Bool :=
  match p.getLast? with
  | none => !prev
  | some c => !(isWordChar c)

/-- Specification reading of a block-list hit: some decomposition of the
string exhibits the verb, up to letter case, with no word character
adjacent on either side. -/
def OccursWholeWord (k : String) (sql : String) : Prop :=
  ∃ p occ q, sql.data = p ++ occ ++ q ∧
    occ.map Char.toUpper = k.data ∧
    boundaryOkB p.getLast? = true ∧
    boundaryOkB q.head? = true

/-- The claim's description of the Table Heuristic, stated as its own
function: lower-case, four keyword sets in priority order
order, sku, location, inventory, a second set refining each match into
a join label, order_header as the default. -/
def specTableLabel (question : String) : String :=
  let q := question.data.map Char.toLower
  if anyKeywordIn ORDER_KEYWORDS q then
    if anyKeywordIn SKU_KEYWORDS q then "order_header JOIN order_line"
    else "order_header"
  else if anyKeywordIn SKU_KEYWORDS q then
    if anyKeywordIn INVENTORY_KEYWORDS q then "sku JOIN inventory"
    else "sku"
  else if anyKeywordIn LOCATION_KEYWORDS q then
    if anyKeywordIn INVENTORY_KEYWORDS q then "location JOIN inventory"
    else "location"
  else if anyKeywordIn INVENTORY_KEYWORDS q then "inventory"
  else "order_header"

/-- A turn whose stripped, lowered text is a close phrase. -/
def isCloseTurn (i : TurnInput) : Bool :=
  decide (lowerStr (stripStr i.message) ∈ closePhrases)

/-- A confirm-state affirmative turn whose approved query ran and
returned rows: the only turn that writes `latest_files`. -/
def isResultTurn (s : Session) (i : TurnInput) : Bool :=
  decide (¬ lowerStr (stripStr i.message) ∈ closePhrases) &&
  decide (¬ i.action = "reset") &&
  decide (¬ stripStr i.message = "") &&
  decide (s.state = ChatState.confirm) &&
  decide (lowerStr (stripStr i.message) ∈ affirmPhrases) &&
  s.pending_sql.isSome &&
  (match i.db with | .ok df => decide (¬ df.rows = []) | .error _ => false)

/-- A 32-character uuid4().hex value used by the concrete runs. -/
def hex32 : String := "0123456789abcdef0123456789abcdef"

/-- A collect-state turn whose synthesizer returns a safe query. -/
def exAsk : TurnInput :=
  { action := "message", message := "show me open orders", synth := .ok "SELECT 1",
    db := .error "unused", fileHex := "aa", issueHex := hex32,
    tokenHex := hex32, mailOk := true }

/-- A confirm-state decline turn. -/
def exNo : TurnInput :=
  { action := "message", message := "no", synth := .error "unused",
    db := .error "unused", fileHex := "aa", issueHex := hex32,
    tokenHex := hex32, mailOk := true }

/-- The world after asking with `exAsk` from the initial session. -/
def exConfirm : List (String × Issue) × Session := stepTurn [] initialSession exAsk

/-- The world after then declining with `exNo`. -/
def exDeclined : List (String × Issue) × Session := stepTurn exConfirm.1 exConfirm.2 exNo

/-- A collect-state turn asking about stock of an item. -/
def exAskStock : TurnInput :=
  { action := "message", message := "stock of item X", synth := .ok "SELECT 1",
    db := .error "unused", fileHex := "aa", issueHex := hex32,
    tokenHex := hex32, mailOk := true }

/-- The world after asking with `exAskStock` from the initial session. -/
def exStockConfirm : List (String × Issue) × Session := stepTurn [] initialSession exAskStock

/-- An affirmative turn whose query returns zero rows, mail delivered. -/
def exYesEmpty : TurnInput :=
  { action := "message", message := "yes", synth := .error "unused",
    db := .ok { cols := ["c"], rows := [] }, fileHex := "aa", issueHex := hex32,
    tokenHex := hex32, mailOk := true }

/-- An affirmative turn whose query returns zero rows, mail failing. -/
def exYesEmptyMailFail : TurnInput :=
  { action := "message", message := "yes", synth := .error "unused",
    db := .ok { cols := ["c"], rows := [] }, fileHex := "aa", issueHex := hex32,
    tokenHex := hex32, mailOk := false }

/-- The world after the empty-result escalation following `exAskStock`. -/
def exEscalated : List (String × Issue) × Session :=
  stepTurn exStockConfirm.1 exStockConfirm.2 exYesEmpty

/-- A close turn with surrounding blanks and mixed case. -/
def exClose : TurnInput :=
  { action := "message", message := " CLOSE Chat ", synth := .error "unused",
    db := .error "unused", fileHex := "aa", issueHex := hex32,
    tokenHex := hex32, mailOk := true }

/-- A plain close turn. -/
def exCloseSimple : TurnInput :=
  { action := "message", message := "close", synth := .error "unused",
    db := .error "unused", fileHex := "aa", issueHex := hex32,
    tokenHex := hex32, mailOk := true }

/-- A collect-state turn whose synthesizer call raises. -/
def exSynthFail : TurnInput :=
  { action := "message", message := "show me open orders", synth := .error "model timeout",
    db := .error "unused", fileHex := "aa", issueHex := hex32,
    tokenHex := hex32, mailOk := true }

/-- An affirmative turn whose database call raises. -/
def exYesDbFail : TurnInput :=
  { action := "message", message := "yes", synth := .error "unused",
    db := .error "db down", fileHex := "aa", issueHex := hex32,
    tokenHex := hex32, mailOk := true }

/-- An affirmative turn whose query returns one row. -/
def exYesRows : TurnInput :=
  { action := "message", message := "yes", synth := .error "unused",
    db := .ok { cols := ["c"], rows := [["1"]] }, fileHex := "bb", issueHex := hex32,
    tokenHex := hex32, mailOk := true }

/-- A session mid-conversation with a pending query and saved files. -/
def dirtySession : Session :=
  { chat := [{ role := .assistant, content := greetingText },
             { role := .user, content := "stock of item X" },
             { role := .assistant, content := confirmPromptText }],
    state := .confirm, pending_sql := some "SELECT 1",
    latest_files := some (save_df_to_files "old") }

/-- An SMTP configuration with credentials present and nothing pinned. -/
def exSmtpCfg : SmtpConfig :=
  { smtp_host := none, smtp_user := some "user", smtp_pass := some "pass",
    upstream_email := some "up@example.com", smtp_use_ssl := none, smtp_port := none }

/-- An SMTP configuration with every variable unset. -/
def exSmtpNoCreds : SmtpConfig :=
  { smtp_host := none, smtp_user := none, smtp_pass := none,
    upstream_email := none, smtp_use_ssl := none, smtp_port := none }

/-- A transport where the SSL attempt times out and the STARTTLS attempt
delivers. -/
def exTryFallback : Attempt → AttemptOutcome :=
  fun a => if a.1 then .connFail "timeout" else .sent

/-- The close branch: any turn whose stripped, lowered text is a close
phrase resets the session to the freshly initialized one (the
acknowledgement appended just before is discarded by `reset_chat`). -/
theorem stepTurn_close (g : List (String × Issue)) (s : Session) (i : TurnInput)
    (h : lowerStr (stripStr i.message) ∈ closePhrases) :
    stepTurn g s i = (g, initialSession) := by
  simp [stepTurn, h, reset_chat, initialSession]

/-- The reset action branch. -/
theorem stepTurn_reset (g : List (String × Issue)) (s : Session) (i : TurnInput)
    (h1 : lowerStr (stripStr i.message) ∉ closePhrases)
    (h2 : i.action = "reset") :
    stepTurn g s i = (g, initialSession) := by
  simp [stepTurn, h1, h2, reset_chat, initialSession]

/-- The empty-text branch: no state change. -/
theorem stepTurn_emptyText (g : List (String × Issue)) (s : Session) (i : TurnInput)
    (h1 : lowerStr (stripStr i.message) ∉ closePhrases)
    (h2 : i.action ≠ "reset")
    (h3 : stripStr i.message = "") :
    stepTurn g s i = (g, s) := by
  simp [stepTurn, h1, h2, h3]
  intro hmem
  exact absurd hmem (by decide)

/-- Collect state, synthesizer failure: error message, state collect. -/
theorem stepTurn_collect_synthError (g : List (String × Issue)) (s : Session) (i : TurnInput)
    (h1 : lowerStr (stripStr i.message) ∉ closePhrases)
    (h2 : i.action ≠ "reset")
    (h3 : stripStr i.message ≠ "")
    (hs : s.state = .collect) (e : String) (hsy : i.synth = .error e) :
    stepTurn g s i =
      (g, { chat := s.chat ++ [⟨.user, stripStr i.message⟩, ⟨.assistant, errorText e⟩],
            state := .collect, pending_sql := s.pending_sql, latest_files := s.latest_files }) := by
  simp [stepTurn, h1, h2, h3, hs, hsy, append_message]

/-- Collect state, gate rejection: rejection message, state unchanged. -/
theorem stepTurn_collect_rejected (g : List (String × Issue)) (s : Session) (i : TurnInput)
    (h1 : lowerStr (stripStr i.message) ∉ closePhrases)
    (h2 : i.action ≠ "reset")
    (h3 : stripStr i.message ≠ "")
    (hs : s.state = .collect) (sql : String) (hsy : i.synth = .ok sql)
    (hrej : is_safe_sql sql = false) :
    stepTurn g s i =
      (g, { chat := s.chat ++ [⟨.user, stripStr i.message⟩, ⟨.assistant, unsafeText⟩],
            state := .collect, pending_sql := s.pending_sql, latest_files := s.latest_files }) := by
  simp [stepTurn, h1, h2, h3, hs, hsy, hrej, append_message]

/-- Collect state, gate acceptance: store the candidate, prompt, move to
confirm. -/
theorem stepTurn_collect_safe (g : List (String × Issue)) (s : Session) (i : TurnInput)
    (h1 : lowerStr (stripStr i.message) ∉ closePhrases)
    (h2 : i.action ≠ "reset")
    (h3 : stripStr i.message ≠ "")
    (hs : s.state = .collect) (sql : String) (hsy : i.synth = .ok sql)
    (hsafe : is_safe_sql sql = true) :
    stepTurn g s i =
      (g, { chat := s.chat ++ [⟨.user, stripStr i.message⟩, ⟨.assistant, confirmPromptText⟩],
            state := .confirm, pending_sql := some sql, latest_files := s.latest_files }) := by
  simp [stepTurn, h1, h2, h3, hs, hsy, hsafe, append_message]

/-- Confirm state, non-affirmative text: decline message, back to
collect; `pending_sql` is left as it was. -/
theorem stepTurn_confirm_decline (g : List (String × Issue)) (s : Session) (i : TurnInput)
    (h1 : lowerStr (stripStr i.message) ∉ closePhrases)
    (h2 : i.action ≠ "reset")
    (h3 : stripStr i.message ≠ "")
    (hs : s.state = .confirm)
    (hno : lowerStr (stripStr i.message) ∉ affirmPhrases) :
    stepTurn g s i =
      (g, { chat := s.chat ++ [⟨.user, stripStr i.message⟩, ⟨.assistant, declineText⟩],
            state := .collect, pending_sql := s.pending_sql, latest_files := s.latest_files }) := by
  simp [stepTurn, h1, h2, h3, hs, hno, append_message]

/-- Confirm state, affirmative, no pending query: the database call on
`None` raises and is caught at the turn boundary. -/
theorem stepTurn_confirm_pendingNone (g : List (String × Issue)) (s : Session) (i : TurnInput)
    (h1 : lowerStr (stripStr i.message) ∉ closePhrases)
    (h2 : i.action ≠ "reset")
    (h3 : stripStr i.message ≠ "")
    (hs : s.state = .confirm)
    (hyes : lowerStr (stripStr i.message) ∈ affirmPhrases)
    (hp : s.pending_sql = none) :
    stepTurn g s i =
      (g, { chat := s.chat ++ [⟨.user, stripStr i.message⟩, ⟨.assistant, errorText "invalid SQL"⟩],
            state := .collect, pending_sql := s.pending_sql, latest_files := s.latest_files }) := by
  simp [stepTurn, h1, h2, h3, hs, hyes, hp, append_message]

/-- Confirm state, affirmative, database failure: error message, state
collect. -/
theorem stepTurn_confirm_dbError (g : List (String × Issue)) (s : Session) (i : TurnInput)
    (h1 : lowerStr (stripStr i.message) ∉ closePhrases)
    (h2 : i.action ≠ "reset")
    (h3 : stripStr i.message ≠ "")
    (hs : s.state = .confirm)
    (hyes : lowerStr (stripStr i.message) ∈ affirmPhrases)
    (sql : String) (hp : s.pending_sql = some sql)
    (e : String) (hdb : i.db = .error e) :
    stepTurn g s i =
      (g, { chat := s.chat ++ [⟨.user, stripStr i.message⟩, ⟨.assistant, errorText e⟩],
            state := .collect, pending_sql := s.pending_sql, latest_files := s.latest_files }) := by
  simp [stepTurn, h1, h2, h3, hs, hyes, hp, hdb, append_message]

/-- Confirm state, affirmative, empty result: escalate (recording the
issue keyed by the first 8 hex characters of the fresh uuid), report,
state collect. -/
theorem stepTurn_confirm_emptyResult (g : List (String × Issue)) (s : Session) (i : TurnInput)
    (h1 : lowerStr (stripStr i.message) ∉ closePhrases)
    (h2 : i.action ≠ "reset")
    (h3 : stripStr i.message ≠ "")
    (hs : s.state = .confirm)
    (hyes : lowerStr (stripStr i.message) ∈ affirmPhrases)
    (sql : String) (hp : s.pending_sql = some sql)
    (df : DataFrame) (hdb : i.db = .ok df) (hemp : df.rows = []) :
    stepTurn g s i =
      ((String.mk (i.issueHex.data.take 8),
          { question := stripStr i.message, sql := sql,
            table := detect_table (stripStr i.message),
            details := "No rows returned", status := "open" }) :: g,
       { chat := s.chat ++ [⟨.user, stripStr i.message⟩,
            ⟨.assistant, if i.mailOk then escalatedText (String.mk (i.issueHex.data.take 8))
              else escalateFailText (String.mk (i.issueHex.data.take 8))⟩],
         state := .collect, pending_sql := s.pending_sql, latest_files := s.latest_files }) := by
  simp [stepTurn, h1, h2, h3, hs, hyes, hp, hdb, hemp, append_message, create_and_send_issue]

/-- Confirm state, affirmative, non-empty result: save the artifacts,
record them in the session, deliver preview and links, state collect. -/
theorem stepTurn_confirm_result (g : List (String × Issue)) (s : Session) (i : TurnInput)
    (h1 : lowerStr (stripStr i.message) ∉ closePhrases)
    (h2 : i.action ≠ "reset")
    (h3 : stripStr i.message ≠ "")
    (hs : s.state = .confirm)
    (hyes : lowerStr (stripStr i.message) ∈ affirmPhrases)
    (sql : String) (hp : s.pending_sql = some sql)
    (df : DataFrame) (hdb : i.db = .ok df) (hemp : df.rows ≠ []) :
    stepTurn g s i =
      (g, { chat := s.chat ++ [⟨.user, stripStr i.message⟩,
              ⟨.assistant, resultsText (previewHtml df)⟩,
              ⟨.assistant, downloadText⟩, ⟨.assistant, anotherText⟩],
            state := .collect, pending_sql := s.pending_sql,
            latest_files := some (save_df_to_files i.fileHex) }) := by
  simp [stepTurn, h1, h2, h3, hs, hyes, hp, hdb, hemp, append_message]

/-- Pushing the scanner's boundary flag through a consumed character. -/
theorem prevOk_cons (prev : Bool) (c : Char) (p : List Char) :
    prevOk prev (c :: p) = prevOk (isWordChar c) p := by
  unfold prevOk
  cases p with
  | nil => simp
  | cons d p =>
    rw [List.getLast?_cons_cons]
    cases hl : (d :: p).getLast? with
    | none => exact absurd (List.getLast?_eq_none_iff.mp hl) (by simp)
    | some c' => rfl

/-- The scanner finds the word iff some split of the remaining input
puts a case-insensitive match of the word, with both boundaries, at the
split point. -/
theorem hasWholeWordFrom_iff (k : List Char) (hk : k ≠ []) :
    ∀ (s : List Char) (prev : Bool),
      hasWholeWordFrom k prev s = true ↔
        ∃ p q, s = p ++ q ∧ prevOk prev p = true ∧ ciPrefixOf k q = true ∧
          afterOk k q = true := by
  intro s
  induction s with
  | nil =>
    intro prev
    simp only [hasWholeWordFrom]
    constructor
    · intro h; exact absurd h (by simp)
    · rintro ⟨p, q, hs, _, hpre, _⟩
      obtain ⟨hp, hq⟩ := List.append_eq_nil.mp hs.symm
      subst hp; subst hq
      cases k with
      | nil => exact absurd rfl hk
      | cons a ks => exact absurd hpre (by simp [ciPrefixOf])
  | cons c cs ih =>
    intro prev
    simp only [hasWholeWordFrom, Bool.or_eq_true, Bool.and_eq_true]
    constructor
    · rintro (⟨⟨hprev, hpre⟩, haft⟩ | h)
      · exact ⟨[], c :: cs, rfl, by simpa [prevOk] using hprev, hpre, haft⟩
      · obtain ⟨p, q, hs, hpo, hpre, haft⟩ := (ih (isWordChar c)).1 h
        exact ⟨c :: p, q, by simp [hs], by rw [prevOk_cons]; exact hpo, hpre, haft⟩
    · rintro ⟨p, q, hs, hpo, hpre, haft⟩
      cases p with
      | nil =>
        left
        simp only [List.nil_append] at hs
        subst hs
        exact ⟨⟨by simpa [prevOk] using hpo, hpre⟩, haft⟩
      | cons d p =>
        right
        simp only [List.cons_append, List.cons.injEq] at hs
        obtain ⟨rfl, hcs⟩ := hs
        rw [prevOk_cons] at hpo
        exact (ih (isWordChar c)).2 ⟨p, q, hcs, hpo, hpre, haft⟩

/-- The case-insensitive prefix test holds iff the input starts with a
block of characters upper-casing to the key. -/
theorem ciPrefixOf_iff (k q : List Char) :
    ciPrefixOf k q = true ↔ ∃ occ r, q = occ ++ r ∧ occ.map Char.toUpper = k := by
  induction k generalizing q with
  | nil =>
    constructor
    · intro _; exact ⟨[], q, rfl, rfl⟩
    · intro _; rfl
  | cons a ks ih =>
    cases q with
    | nil =>
      simp only [ciPrefixOf]
      constructor
      · intro h; exact absurd h (by simp)
      · rintro ⟨occ, r, hs, hm⟩
        have : occ = [] := by cases occ <;> simp_all
        subst this
        simp at hm
    | cons c cs =>
      simp only [ciPrefixOf, Bool.and_eq_true, beq_iff_eq, ih]
      constructor
      · rintro ⟨hca, occ, r, rfl, hm⟩
        exact ⟨c :: occ, r, rfl, by simp [hca, hm]⟩
      · rintro ⟨occ, r, hs, hm⟩
        cases occ with
        | nil => simp at hm
        | cons o os =>
          simp only [List.cons_append, List.cons.injEq] at hs
          obtain ⟨rfl, rfl⟩ := hs
          simp only [List.map_cons, List.cons.injEq] at hm
          exact ⟨hm.1, os, r, rfl, hm.2⟩

/-- After a full-length match, the trailing boundary test inspects
exactly the first character following the occurrence. -/
theorem afterOk_append (k occ r : List Char) (hlen : occ.length = k.length) :
    afterOk k (occ ++ r) = boundaryOkB r.head? := by
  unfold afterOk
  rw [show (occ ++ r).drop k.length = r from by rw [← hlen, List.drop_left]]
  cases r <;> simp [boundaryOkB]

/-- The executable whole-word scan agrees with the specification's
decomposition reading of a case-insensitive whole-word occurrence. -/
theorem hasWholeWord_iff (k : String) (hk : k.data ≠ []) (sql : String) :
    hasWholeWord k.data sql.data = true ↔ OccursWholeWord k sql := by
  unfold hasWholeWord OccursWholeWord
  rw [hasWholeWordFrom_iff k.data hk]
  constructor
  · rintro ⟨p, q, hs, hpo, hpre, haft⟩
    obtain ⟨occ, r, rfl, hocc⟩ := (ciPrefixOf_iff _ _).1 hpre
    have hlen : occ.length = k.data.length := by rw [← hocc]; simp
    refine ⟨p, occ, r, by simp [hs], hocc, ?_, ?_⟩
    · unfold prevOk at hpo
      cases hl : p.getLast? with
      | none => simp [boundaryOkB]
      | some c => rw [hl] at hpo; simpa [boundaryOkB] using hpo
    · rw [afterOk_append _ _ _ hlen] at haft; exact haft
  · rintro ⟨p, occ, q, hs, hocc, hpl, hql⟩
    have hlen : occ.length = k.data.length := by rw [← hocc]; simp
    refine ⟨p, occ ++ q, by simp [hs], ?_, ?_, ?_⟩
    · unfold prevOk
      cases hl : p.getLast? with
      | none => rfl
      | some c => rw [hl] at hpl; simpa [boundaryOkB] using hpl
    · exact (ciPrefixOf_iff _ _).2 ⟨occ, q, rfl, hocc⟩
    · rw [afterOk_append _ _ _ hlen]; exact hql

/-- `WRITE_PATTERN.search` hits iff some block-listed verb occurs as a
case-insensitive whole word. -/
theorem writePatternSearch_iff (sql : String) :
    writePatternSearch sql = true ↔ ∃ k ∈ WRITE_KEYWORDS, OccursWholeWord k sql := by
  have hne : ∀ k ∈ WRITE_KEYWORDS, k.data ≠ [] := by decide
  unfold writePatternSearch
  rw [List.any_eq_true]
  constructor
  · rintro ⟨k, hk, h⟩
    exact ⟨k, hk, (hasWholeWord_iff k (hne k hk) sql).1 h⟩
  · rintro ⟨k, hk, h⟩
    exact ⟨k, hk, (hasWholeWord_iff k (hne k hk) sql).2 h⟩

/-- A gate-accepted query is non-empty (it starts with SELECT after
stripping). -/
theorem is_safe_sql_ne_empty (q : String) (h : is_safe_sql q = true) : q ≠ "" := by
  intro hq; subst hq; exact absurd h (by decide)

/-- One turn preserves the confirm-implies-pending invariant: the only
branch entering the confirm state also stores a gate-accepted query. -/
theorem stepTurn_confirm_inv (g : List (String × Issue)) (s : Session) (i : TurnInput)
    (h : s.state = ChatState.confirm →
      ∃ q, s.pending_sql = some q ∧ is_safe_sql q = true) :
    (stepTurn g s i).2.state = ChatState.confirm →
      ∃ q, (stepTurn g s i).2.pending_sql = some q ∧ is_safe_sql q = true := by
  by_cases h1 : lowerStr (stripStr i.message) ∈ closePhrases
  · rw [stepTurn_close g s i h1]; intro hc; simp [initialSession, reset_chat] at hc
  · by_cases h2 : i.action = "reset"
    · rw [stepTurn_reset g s i h1 h2]; intro hc; simp [initialSession, reset_chat] at hc
    · by_cases h3 : stripStr i.message = ""
      · rw [stepTurn_emptyText g s i h1 h2 h3]; exact h
      · cases hs : s.state with
        | collect =>
          cases hsy : i.synth with
          | error e =>
            rw [stepTurn_collect_synthError g s i h1 h2 h3 hs e hsy]
            intro hc; simp at hc
          | ok sql =>
            by_cases hsafe : is_safe_sql sql = true
            · rw [stepTurn_collect_safe g s i h1 h2 h3 hs sql hsy hsafe]
              intro _; exact ⟨sql, rfl, hsafe⟩
            · rw [stepTurn_collect_rejected g s i h1 h2 h3 hs sql hsy
                (by simpa using hsafe)]
              intro hc; simp at hc
        | confirm =>
          by_cases hyes : lowerStr (stripStr i.message) ∈ affirmPhrases
          · cases hp : s.pending_sql with
            | none =>
              rw [stepTurn_confirm_pendingNone g s i h1 h2 h3 hs hyes hp]
              intro hc; simp at hc
            | some sql =>
              cases hdb : i.db with
              | error e =>
                rw [stepTurn_confirm_dbError g s i h1 h2 h3 hs hyes sql hp e hdb]
                intro hc; simp at hc
              | ok df =>
                by_cases hemp : df.rows = []
                · rw [stepTurn_confirm_emptyResult g s i h1 h2 h3 hs hyes sql hp df hdb hemp]
                  intro hc; simp at hc
                · rw [stepTurn_confirm_result g s i h1 h2 h3 hs hyes sql hp df hdb hemp]
                  intro hc; simp at hc
          · rw [stepTurn_confirm_decline g s i h1 h2 h3 hs hyes]
            intro hc; simp at hc

/-- In every reachable state, confirm implies a stored gate-accepted
query. -/
theorem reachable_confirm_inv (g : List (String × Issue)) (s : Session)
    (h : Reachable g s) :
    s.state = ChatState.confirm →
      ∃ q, s.pending_sql = some q ∧ is_safe_sql q = true := by
  induction h with
  | init => intro hc; exact absurd hc (by decide)
  | turn hr i ih => exact stepTurn_confirm_inv _ _ i ih

/-- C1: the Safety Gate accepts a candidate string iff no block-listed
verb occurs in it as a case-insensitive whole word and the stripped,
upper-cased text starts with SELECT; in particular every string
containing a whole-word block-listed verb is rejected, even one that
starts with SELECT. -/
theorem c1_safety_gate (sql : String) :
    (is_safe_sql sql = true ↔
      ((∀ k ∈ WRITE_KEYWORDS, ¬ OccursWholeWord k sql) ∧
        ∃ r, (trimChars sql.data).map Char.toUpper = "SELECT".data ++ r)) ∧
    (∀ k ∈ WRITE_KEYWORDS, OccursWholeWord k sql → is_safe_sql sql = false) := by
  have hsearch := writePatternSearch_iff sql
  have hrej : ∀ k ∈ WRITE_KEYWORDS, OccursWholeWord k sql → is_safe_sql sql = false := by
    intro k hk hocc
    unfold is_safe_sql
    rw [if_pos (hsearch.2 ⟨k, hk, hocc⟩)]
  refine ⟨?_, hrej⟩
  unfold is_safe_sql
  by_cases h : writePatternSearch sql = true
  · rw [if_pos h]
    obtain ⟨k, hk, hocc⟩ := hsearch.1 h
    constructor
    · intro hfalse; exact absurd hfalse (by simp)
    · rintro ⟨hall, _⟩; exact absurd hocc (hall k hk)
  · rw [if_neg h]
    have hno : ∀ k ∈ WRITE_KEYWORDS, ¬ OccursWholeWord k sql := fun k hk hocc =>
      h (hsearch.2 ⟨k, hk, hocc⟩)
    rw [ List.isPrefixOf_iff_prefix]
    constructor
    · rintro ⟨t, ht⟩; exact ⟨hno, t, ht.symm⟩
    · rintro ⟨_, r, hr⟩; exact ⟨r, hr.symm⟩

/-- C1 witness: a SELECT statement containing the whole word DROP is
rejected by the gate. -/
theorem c1_safety_gate_witness :
    OccursWholeWord "DROP" "SELECT * FROM t; DROP TABLE t" ∧
      is_safe_sql "SELECT * FROM t; DROP TABLE t" = false :=
  have hocc : OccursWholeWord "DROP" "SELECT * FROM t; DROP TABLE t" :=
    ⟨"SELECT * FROM t; ".data, "DROP".data, " TABLE t".data,
      by decide, by decide, by decide, by decide⟩
  ⟨hocc, (c1_safety_gate "SELECT * FROM t; DROP TABLE t").2 "DROP" (by decide) hocc⟩

/-- C2 (amended): across every reachable state, the confirm state always
carries a non-empty, gate-accepted pending query; but leaving confirm by
a decline does not clear it — the decline returns to collect with
`pending_sql` unchanged, so a set `pending_sql` does not imply the
confirm state. -/
theorem c2_pending_confirm_amended (g : List (String × Issue)) (s : Session)
    (hr : Reachable g s) :
    (s.state = ChatState.confirm →
      ∃ q, s.pending_sql = some q ∧ q ≠ "" ∧ is_safe_sql q = true) ∧
    (∀ i : TurnInput, lowerStr (stripStr i.message) ∉ closePhrases → i.action ≠ "reset" →
      stripStr i.message ≠ "" → s.state = ChatState.confirm →
      lowerStr (stripStr i.message) ∉ affirmPhrases →
      (stepTurn g s i).2.state = ChatState.collect ∧
        (stepTurn g s i).2.pending_sql = s.pending_sql) := by
  constructor
  · intro hc
    obtain ⟨q, hq, hsafe⟩ := reachable_confirm_inv g s hr hc
    exact ⟨q, hq, is_safe_sql_ne_empty q hsafe, hsafe⟩
  · intro i h1 h2 h3 hs hno
    rw [stepTurn_confirm_decline g s i h1 h2 h3 hs hno]
    exact ⟨rfl, rfl⟩

/-- C2 witness: the amended claim applied to the concrete reachable
confirm state after `exAsk` and to the decline turn `exNo`. -/
theorem c2_pending_confirm_amended_witness :
    (∃ q, exConfirm.2.pending_sql = some q ∧ q ≠ "" ∧ is_safe_sql q = true) ∧
    (stepTurn exConfirm.1 exConfirm.2 exNo).2.state = ChatState.collect ∧
    (stepTurn exConfirm.1 exConfirm.2 exNo).2.pending_sql = exConfirm.2.pending_sql := by
  have h := c2_pending_confirm_amended exConfirm.1 exConfirm.2
    (Reachable.turn Reachable.init exAsk)
  exact ⟨h.1 (by decide),
    (h.2 exNo (by decide) (by decide) (by decide) (by decide) (by decide)).1,
    (h.2 exNo (by decide) (by decide) (by decide) (by decide) (by decide)).2⟩

/-- C2 counterexample: after a safe query is accepted and then declined,
the reachable session is in collect state while `pending_sql` is still
set, refuting the if-and-only-if invariant and the claim that a decline
clears `pending_sql`. -/
theorem c2_counterexample :
    Reachable exDeclined.1 exDeclined.2 ∧
      exDeclined.2.state = ChatState.collect ∧
      exDeclined.2.pending_sql = some "SELECT 1" :=
  ⟨Reachable.turn (Reachable.turn Reachable.init exAsk) exNo, by decide, by decide⟩

/-- C5: a close-phrase turn, in any state, fully resets the session:
fresh greeting transcript, collect state, no pending query, no files. -/
theorem c5_close_phrase_resets (g : List (String × Issue)) (s : Session) (i : TurnInput)
    (h : lowerStr (stripStr i.message) ∈ closePhrases) :
    (stepTurn g s i).1 = g ∧
    (stepTurn g s i).2.chat = [{ role := Role.assistant, content := greetingText }] ∧
    (stepTurn g s i).2.state = ChatState.collect ∧
    (stepTurn g s i).2.pending_sql = none ∧
    (stepTurn g s i).2.latest_files = none := by
  rw [stepTurn_close g s i h]
  exact ⟨rfl, rfl, rfl, rfl, rfl⟩

/-- C5 witness: the mixed-case close phrase resets a confirm-state
session holding a pending query and files. -/
theorem c5_close_phrase_resets_witness :
    lowerStr (stripStr exClose.message) ∈ closePhrases ∧
    (stepTurn [] dirtySession exClose).2.chat =
      [{ role := Role.assistant, content := greetingText }] ∧
    (stepTurn [] dirtySession exClose).2.state = ChatState.collect ∧
    (stepTurn [] dirtySession exClose).2.pending_sql = none ∧
    (stepTurn [] dirtySession exClose).2.latest_files = none := by
  have h := c5_close_phrase_resets [] dirtySession exClose (by decide)
  exact ⟨by decide, h.2.1, h.2.2.1, h.2.2.2.1, h.2.2.2.2⟩

/-- C6: synthesis failures (collect state) and data-access failures
(confirm state) are caught at the turn boundary: the user message and an
error message are appended, the state is set to collect, and the rest of
the session is untouched. -/
theorem c6_turn_failures_caught :
    (∀ (g : List (String × Issue)) (s : Session) (i : TurnInput) (e : String),
      lowerStr (stripStr i.message) ∉ closePhrases → i.action ≠ "reset" →
      stripStr i.message ≠ "" → s.state = ChatState.collect → i.synth = .error e →
      stepTurn g s i =
        (g, { chat := s.chat ++ [{ role := Role.user, content := stripStr i.message },
                { role := Role.assistant, content := errorText e }],
              state := ChatState.collect, pending_sql := s.pending_sql,
              latest_files := s.latest_files })) ∧
    (∀ (g : List (String × Issue)) (s : Session) (i : TurnInput) (sql e : String),
      lowerStr (stripStr i.message) ∉ closePhrases → i.action ≠ "reset" →
      stripStr i.message ≠ "" → s.state = ChatState.confirm →
      lowerStr (stripStr i.message) ∈ affirmPhrases →
      s.pending_sql = some sql → i.db = .error e →
      stepTurn g s i =
        (g, { chat := s.chat ++ [{ role := Role.user, content := stripStr i.message },
                { role := Role.assistant, content := errorText e }],
              state := ChatState.collect, pending_sql := s.pending_sql,
              latest_files := s.latest_files })) := by
  constructor
  · intro g s i e h1 h2 h3 hs hsy
    exact stepTurn_collect_synthError g s i h1 h2 h3 hs e hsy
  · intro g s i sql e h1 h2 h3 hs hyes hp hdb
    exact stepTurn_confirm_dbError g s i h1 h2 h3 hs hyes sql hp e hdb

/-- C6 witness: a failing synthesizer call and a failing database call
at concrete sessions, both recovered to collect with an error message. -/
theorem c6_turn_failures_caught_witness :
    stepTurn [] initialSession exSynthFail =
      ([], { chat := initialSession.chat ++
                [{ role := Role.user, content := stripStr exSynthFail.message },
                 { role := Role.assistant, content := errorText "model timeout" }],
             state := ChatState.collect, pending_sql := initialSession.pending_sql,
             latest_files := initialSession.latest_files }) ∧
    stepTurn exConfirm.1 exConfirm.2 exYesDbFail =
      (exConfirm.1,
        { chat := exConfirm.2.chat ++
            [{ role := Role.user, content := stripStr exYesDbFail.message },
             { role := Role.assistant, content := errorText "db down" }],
          state := ChatState.collect, pending_sql := exConfirm.2.pending_sql,
          latest_files := exConfirm.2.latest_files }) :=
  ⟨(c6_turn_failures_caught).1 [] initialSession exSynthFail "model timeout"
      (by decide) (by decide) (by decide) rfl rfl,
   (c6_turn_failures_caught).2 exConfirm.1 exConfirm.2 exYesDbFail "SELECT 1" "db down"
      (by decide) (by decide) (by decide) (by decide) (by decide) (by decide) rfl⟩

/-- C7: the Table Heuristic equals its specification description, is
deterministic (identical input yields identical label), and yields the
order table label when no keyword set matches. -/
theorem c7_table_heuristic (question : String) :
    detect_table question = specTableLabel question ∧
    (∀ question', question = question' →
      detect_table question = detect_table question') ∧
    (anyKeywordIn ORDER_KEYWORDS (question.data.map Char.toLower) = false →
      anyKeywordIn SKU_KEYWORDS (question.data.map Char.toLower) = false →
      anyKeywordIn LOCATION_KEYWORDS (question.data.map Char.toLower) = false →
      anyKeywordIn INVENTORY_KEYWORDS (question.data.map Char.toLower) = false →
      detect_table question = "order_header") := by
  refine ⟨rfl, fun q' h => by rw [h], fun h1 h2 h3 h4 => ?_⟩
  simp [detect_table, h1, h2, h3, h4]

/-- C7 witness: the heuristic on a keyword-free question. -/
theorem c7_table_heuristic_witness :
    detect_table "hello there" = detect_table "hello there" ∧
    detect_table "hello there" = "order_header" :=
  ⟨(c7_table_heuristic "hello there").2.1 "hello there" rfl,
   (c7_table_heuristic "hello there").2.2 (by decide) (by decide) (by decide) (by decide)⟩

/-- C3: the Escalation Workflow records the open issue, keyed by its
8-character id, in the store handed to the delivery attempt; the stored
record does not depend on the delivery outcome (no rollback); the
function returns the id together with the delivery flag; and when
delivery fails after an empty result, the orchestrator reports the id
with the failed-notification note while the issue stays recorded. -/
theorem c3_escalation_no_rollback :
    (∀ (store : List (String × Issue)) (q sql tbl det ih th : String)
        (mail : String → String → List (String × Issue) → Bool),
      ih.data.length = 32 →
      (create_and_send_issue store q sql tbl det ih th mail).store =
          ((create_and_send_issue store q sql tbl det ih th mail).issue_id,
            { question := q, sql := sql, table := tbl, details := det,
              status := "open" }) :: store ∧
      (create_and_send_issue store q sql tbl det ih th mail).issue_id.data.length = 8 ∧
      (create_and_send_issue store q sql tbl det ih th mail).issue_id ≠ "" ∧
      (create_and_send_issue store q sql tbl det ih th mail).ok =
          mail (create_and_send_issue store q sql tbl det ih th mail).subject
            (create_and_send_issue store q sql tbl det ih th mail).body
            (create_and_send_issue store q sql tbl det ih th mail).store ∧
      (∀ mail', (create_and_send_issue store q sql tbl det ih th mail').store =
          (create_and_send_issue store q sql tbl det ih th mail).store)) ∧
    (∀ (g : List (String × Issue)) (s : Session) (i : TurnInput) (sql : String)
        (df : DataFrame),
      lowerStr (stripStr i.message) ∉ closePhrases → i.action ≠ "reset" →
      stripStr i.message ≠ "" → s.state = ChatState.confirm →
      lowerStr (stripStr i.message) ∈ affirmPhrases →
      s.pending_sql = some sql → i.db = .ok df → df.rows = [] → i.mailOk = false →
      (stepTurn g s i).1 =
          (String.mk (i.issueHex.data.take 8),
            { question := stripStr i.message, sql := sql,
              table := detect_table (stripStr i.message),
              details := "No rows returned", status := "open" }) :: g ∧
      (stepTurn g s i).2.chat =
          s.chat ++ [{ role := Role.user, content := stripStr i.message },
            { role := Role.assistant,
              content := escalateFailText (String.mk (i.issueHex.data.take 8)) }] ∧
      (stepTurn g s i).2.state = ChatState.collect) := by
  constructor
  · intro store q sql tbl det ih th mail hlen
    have h8 : (create_and_send_issue store q sql tbl det ih th mail).issue_id.data.length = 8 := by
      show (ih.data.take 8).length = 8
      rw [List.length_take, hlen]
      decide
    refine ⟨rfl, h8, ?_, rfl, fun mail' => rfl⟩
    intro hempty
    rw [hempty] at h8
    exact absurd h8 (by decide)
  · intro g s i sql df h1 h2 h3 hs hyes hp hdb hemp hmail
    rw [stepTurn_confirm_emptyResult g s i h1 h2 h3 hs hyes sql hp df hdb hemp]
    refine ⟨rfl, ?_, rfl⟩
    simp [hmail]

/-- C3 witness: a concrete escalation with a failing transport. -/
theorem c3_escalation_no_rollback_witness :
    (create_and_send_issue [] "q" "SELECT 1" "order_header" "No rows returned"
        hex32 hex32 (fun _ _ _ => false)).issue_id.data.length = 8 ∧
    (stepTurn exStockConfirm.1 exStockConfirm.2 exYesEmptyMailFail).2.state =
      ChatState.collect := by
  have h1 := (c3_escalation_no_rollback).1 [] "q" "SELECT 1" "order_header"
    "No rows returned" hex32 hex32 (fun _ _ _ => false) (by decide)
  have h2 := (c3_escalation_no_rollback).2 exStockConfirm.1 exStockConfirm.2
    exYesEmptyMailFail "SELECT 1" { cols := ["c"], rows := [] }
    (by decide) (by decide) (by decide) (by decide) (by decide) (by decide) rfl rfl rfl
  exact ⟨h1.2.1, h2.2.2⟩

/-- C4: at the failing input — original question "stock of item X",
confirmed with "yes", zero rows — the recorded issue carries question
"yes" and the default table label "order_header" from the heuristic
applied to "yes", not the original question and its label
"sku JOIN inventory"; the remaining fields, the collect state and the
id-bearing response match the claim. -/
theorem c4_escalation_question_divergence :
    exEscalated.1 = [("01234567",
      { question := "yes", sql := "SELECT 1", table := "order_header",
        details := "No rows returned", status := "open" })] ∧
    detect_table "stock of item X" = "sku JOIN inventory" ∧
    exEscalated.2.state = ChatState.collect ∧
    exEscalated.2.chat.getLast? =
      some { role := Role.assistant, content := escalatedText "01234567" } :=
  ⟨by decide, by decide, by decide, by decide⟩

/-- C9 (amended): every accepted non-close message turn appends the
stripped user text immediately after the prior transcript, before any
processing-dependent messages, which are all assistant responses — so
the user's input survives synthesis or database failures; a close-phrase
turn appends the acknowledgement but the subsequent reset reinitializes
the transcript to the greeting alone, so neither the close input nor the
acknowledgement remains in the transcript. -/
theorem c9_transcript_append_order :
    (∀ (g : List (String × Issue)) (s : Session) (i : TurnInput),
      lowerStr (stripStr i.message) ∉ closePhrases → i.action ≠ "reset" →
      stripStr i.message ≠ "" →
      ∃ rest, (stepTurn g s i).2.chat =
          s.chat ++ { role := Role.user, content := stripStr i.message } :: rest ∧
        ∀ m ∈ rest, m.role = Role.assistant) ∧
    (∀ (g : List (String × Issue)) (s : Session) (i : TurnInput),
      lowerStr (stripStr i.message) ∈ closePhrases →
      (stepTurn g s i).2.chat = [{ role := Role.assistant, content := greetingText }]) := by
  constructor
  · intro g s i h1 h2 h3
    cases hs : s.state with
    | collect =>
      cases hsy : i.synth with
      | error e =>
        rw [stepTurn_collect_synthError g s i h1 h2 h3 hs e hsy]
        exact ⟨[{ role := Role.assistant, content := errorText e }], by simp, by simp⟩
      | ok sql =>
        by_cases hsafe : is_safe_sql sql = true
        · rw [stepTurn_collect_safe g s i h1 h2 h3 hs sql hsy hsafe]
          exact ⟨[{ role := Role.assistant, content := confirmPromptText }], by simp, by simp⟩
        · rw [stepTurn_collect_rejected g s i h1 h2 h3 hs sql hsy (by simpa using hsafe)]
          exact ⟨[{ role := Role.assistant, content := unsafeText }], by simp, by simp⟩
    | confirm =>
      by_cases hyes : lowerStr (stripStr i.message) ∈ affirmPhrases
      · cases hp : s.pending_sql with
        | none =>
          rw [stepTurn_confirm_pendingNone g s i h1 h2 h3 hs hyes hp]
          exact ⟨[{ role := Role.assistant, content := errorText "invalid SQL" }],
            by simp, by simp⟩
        | some sql =>
          cases hdb : i.db with
          | error e =>
            rw [stepTurn_confirm_dbError g s i h1 h2 h3 hs hyes sql hp e hdb]
            exact ⟨[{ role := Role.assistant, content := errorText e }], by simp, by simp⟩
          | ok df =>
            by_cases hemp : df.rows = []
            · rw [stepTurn_confirm_emptyResult g s i h1 h2 h3 hs hyes sql hp df hdb hemp]
              exact ⟨[{ role := Role.assistant,
                        content := if i.mailOk then
                            escalatedText (String.mk (i.issueHex.data.take 8))
                          else escalateFailText (String.mk (i.issueHex.data.take 8)) }],
                by simp, by simp⟩
            · rw [stepTurn_confirm_result g s i h1 h2 h3 hs hyes sql hp df hdb hemp]
              exact ⟨[{ role := Role.assistant, content := resultsText (previewHtml df) },
                  { role := Role.assistant, content := downloadText },
                  { role := Role.assistant, content := anotherText }], by simp, by simp⟩
      · rw [stepTurn_confirm_decline g s i h1 h2 h3 hs hyes]
        exact ⟨[{ role := Role.assistant, content := declineText }], by simp, by simp⟩
  · intro g s i h
    rw [stepTurn_close g s i h]
    rfl

/-- C9 witness: a failing-synthesizer turn still leaves the user's text
in the transcript, followed only by assistant output. -/
theorem c9_transcript_append_order_witness :
    ∃ rest, (stepTurn [] initialSession exSynthFail).2.chat =
        initialSession.chat ++
          { role := Role.user, content := stripStr exSynthFail.message } :: rest ∧
      ∀ m ∈ rest, m.role = Role.assistant :=
  (c9_transcript_append_order).1 [] initialSession exSynthFail
    (by decide) (by decide) (by decide)

/-- C9 counterexample: a close-phrase turn does not append the user's
input: afterwards the transcript is exactly the fresh greeting,
containing neither the input "close" nor the closing acknowledgement. -/
theorem c9_counterexample :
    (stepTurn [] dirtySession exCloseSimple).2.chat =
      [{ role := Role.assistant, content := greetingText }] ∧
    ({ role := Role.user, content := "close" } : Message) ∉
      (stepTurn [] dirtySession exCloseSimple).2.chat ∧
    ({ role := Role.assistant, content := closedText } : Message) ∉
      (stepTurn [] dirtySession exCloseSimple).2.chat :=
  ⟨by decide, by decide, by decide⟩

/-- C10: `latest_files` after a turn is: cleared by a close or reset
turn, overwritten by a successful non-empty result turn, and unchanged
otherwise — in particular an empty-result escalation leaves it intact
and the download route keeps serving the previous files. -/
theorem c10_latest_files_frame :
    (∀ (g : List (String × Issue)) (s : Session) (i : TurnInput),
      (stepTurn g s i).2.latest_files =
        if isCloseTurn i then none
        else if i.action = "reset" then none
        else if isResultTurn s i then some (save_df_to_files i.fileHex)
        else s.latest_files) ∧
    (∀ (g : List (String × Issue)) (s : Session) (i : TurnInput) (sql : String)
        (df : DataFrame) (ft : String),
      lowerStr (stripStr i.message) ∉ closePhrases → i.action ≠ "reset" →
      stripStr i.message ≠ "" → s.state = ChatState.confirm →
      lowerStr (stripStr i.message) ∈ affirmPhrases →
      s.pending_sql = some sql → i.db = .ok df → df.rows = [] →
      (stepTurn g s i).2.latest_files = s.latest_files ∧
      download_file (stepTurn g s i).2 ft = download_file s ft) := by
  constructor
  · intro g s i
    by_cases h1 : lowerStr (stripStr i.message) ∈ closePhrases
    · rw [stepTurn_close g s i h1]
      simp [isCloseTurn, h1, initialSession, reset_chat]
    · by_cases h2 : i.action = "reset"
      · rw [stepTurn_reset g s i h1 h2]
        simp [isCloseTurn, h1, h2, initialSession, reset_chat]
      · by_cases h3 : stripStr i.message = ""
        · rw [stepTurn_emptyText g s i h1 h2 h3]
          simp [isCloseTurn, isResultTurn, h1, h2, h3,
            show ¬ (lowerStr "" ∈ closePhrases) by decide]
        · cases hs : s.state with
          | collect =>
            cases hsy : i.synth with
            | error e =>
              rw [stepTurn_collect_synthError g s i h1 h2 h3 hs e hsy]
              simp [isCloseTurn, isResultTurn, h1, h2, h3, hs]
            | ok sql =>
              by_cases hsafe : is_safe_sql sql = true
              · rw [stepTurn_collect_safe g s i h1 h2 h3 hs sql hsy hsafe]
                simp [isCloseTurn, isResultTurn, h1, h2, h3, hs]
              · rw [stepTurn_collect_rejected g s i h1 h2 h3 hs sql hsy (by simpa using hsafe)]
                simp [isCloseTurn, isResultTurn, h1, h2, h3, hs]
          | confirm =>
            by_cases hyes : lowerStr (stripStr i.message) ∈ affirmPhrases
            · cases hp : s.pending_sql with
              | none =>
                rw [stepTurn_confirm_pendingNone g s i h1 h2 h3 hs hyes hp]
                simp [isCloseTurn, isResultTurn, h1, h2, h3, hs, hyes, hp]
              | some sql =>
                cases hdb : i.db with
                | error e =>
                  rw [stepTurn_confirm_dbError g s i h1 h2 h3 hs hyes sql hp e hdb]
                  simp [isCloseTurn, isResultTurn, h1, h2, h3, hs, hyes, hp, hdb]
                | ok df =>
                  by_cases hemp : df.rows = []
                  · rw [stepTurn_confirm_emptyResult g s i h1 h2 h3 hs hyes sql hp df hdb hemp]
                    simp [isCloseTurn, isResultTurn, h1, h2, h3, hs, hyes, hp, hdb, hemp]
                  · rw [stepTurn_confirm_result g s i h1 h2 h3 hs hyes sql hp df hdb hemp]
                    simp [isCloseTurn, isResultTurn, h1, h2, h3, hs, hyes, hp, hdb, hemp]
            · rw [stepTurn_confirm_decline g s i h1 h2 h3 hs hyes]
              simp [isCloseTurn, isResultTurn, h1, h2, h3, hs, hyes]
  · intro g s i sql df ft h1 h2 h3 hs hyes hp hdb hemp
    rw [stepTurn_confirm_emptyResult g s i h1 h2 h3 hs hyes sql hp df hdb hemp]
    exact ⟨rfl, rfl⟩

/-- C10 witness: an empty-result escalation from a session holding
earlier files keeps `latest_files` and the served csv path intact. -/
theorem c10_latest_files_frame_witness :
    (stepTurn [] dirtySession exYesEmpty).2.latest_files = dirtySession.latest_files ∧
    download_file (stepTurn [] dirtySession exYesEmpty).2 "csv" =
      download_file dirtySession "csv" :=
  (c10_latest_files_frame).2 [] dirtySession exYesEmpty "SELECT 1"
    { cols := ["c"], rows := [] } "csv"
    (by decide) (by decide) (by decide) rfl (by decide) rfl rfl rfl

/-- C8 (amended): when SMTP credentials and the upstream address are
configured and no environment variable pins a transport, exactly the two
attempts SSL:465 then STARTTLS:587 are tried in order, falling through
only on connection-level failures, returning true on the first delivery
and false after both fail, with any other exception propagating; a
pinned configuration yields a single attempt; missing credentials skip
delivery entirely, returning false with no attempt. -/
theorem c8_mail_attempt_sequence :
    (∀ (cfg : SmtpConfig) (tryA : Attempt → AttemptOutcome),
      truthyEnv cfg.smtp_user = true → truthyEnv cfg.smtp_pass = true →
      truthyEnv cfg.upstream_email = true →
      truthyEnv cfg.smtp_port = false → cfg.smtp_use_ssl = none →
      mailAttempts cfg = [(true, cfg.smtp_host.getD "smtp.gmail.com", 465),
          (false, cfg.smtp_host.getD "smtp.gmail.com", 587)] ∧
      (tryA (true, cfg.smtp_host.getD "smtp.gmail.com", 465) = .sent →
        send_mail_to_upstream cfg tryA =
          .ok (true, [(true, cfg.smtp_host.getD "smtp.gmail.com", 465)])) ∧
      (∀ e, tryA (true, cfg.smtp_host.getD "smtp.gmail.com", 465) = .connFail e →
        tryA (false, cfg.smtp_host.getD "smtp.gmail.com", 587) = .sent →
        send_mail_to_upstream cfg tryA =
          .ok (true, [(true, cfg.smtp_host.getD "smtp.gmail.com", 465),
            (false, cfg.smtp_host.getD "smtp.gmail.com", 587)])) ∧
      (∀ e e', tryA (true, cfg.smtp_host.getD "smtp.gmail.com", 465) = .connFail e →
        tryA (false, cfg.smtp_host.getD "smtp.gmail.com", 587) = .connFail e' →
        send_mail_to_upstream cfg tryA =
          .ok (false, [(true, cfg.smtp_host.getD "smtp.gmail.com", 465),
            (false, cfg.smtp_host.getD "smtp.gmail.com", 587)])) ∧
      (∀ e, tryA (true, cfg.smtp_host.getD "smtp.gmail.com", 465) = .fatal e →
        send_mail_to_upstream cfg tryA = .error e)) ∧
    (∀ (cfg : SmtpConfig) (tryA : Attempt → AttemptOutcome),
      truthyEnv cfg.smtp_user = true → truthyEnv cfg.smtp_pass = true →
      truthyEnv cfg.upstream_email = true →
      (truthyEnv cfg.smtp_port = true ∨ cfg.smtp_use_ssl ≠ none) →
      (mailAttempts cfg).length = 1 ∧
        send_mail_to_upstream cfg tryA = runAttempts tryA (mailAttempts cfg)) ∧
    (∀ (cfg : SmtpConfig) (tryA : Attempt → AttemptOutcome),
      (truthyEnv cfg.smtp_user && truthyEnv cfg.smtp_pass &&
        truthyEnv cfg.upstream_email) = false →
      send_mail_to_upstream cfg tryA = .ok (false, [])) := by
  refine ⟨?_, ?_, ?_⟩
  · intro cfg tryA hu hpw he hport hssl
    have hatt : mailAttempts cfg = [(true, cfg.smtp_host.getD "smtp.gmail.com", 465),
        (false, cfg.smtp_host.getD "smtp.gmail.com", 587)] := by
      simp [mailAttempts, hport, hssl]
    have hsend : send_mail_to_upstream cfg tryA =
        runAttempts tryA (mailAttempts cfg) := by
      simp [send_mail_to_upstream, hu, hpw, he]
    refine ⟨hatt, ?_, ?_, ?_, ?_⟩
    · intro hsent
      rw [hsend, hatt]
      simp [runAttempts, hsent]
    · intro e hc1 hsent
      rw [hsend, hatt]
      simp [runAttempts, hc1, hsent]
    · intro e e' hc1 hc2
      rw [hsend, hatt]
      simp [runAttempts, hc1, hc2]
    · intro e hf
      rw [hsend, hatt]
      simp [runAttempts, hf]
  · intro cfg tryA hu hpw he hpin
    have hcond : (truthyEnv cfg.smtp_port || !(cfg.smtp_use_ssl == none)) = true := by
      rcases hpin with h | h
      · simp [h]
      · simp [h]
    constructor
    · unfold mailAttempts
      rw [if_pos hcond]
      simp
    · simp [send_mail_to_upstream, hu, hpw, he]
  · intro cfg tryA h
    simp [send_mail_to_upstream, h]

/-- C8 witness: with credentials configured and nothing pinned, an SSL
timeout falls through to a successful STARTTLS delivery. -/
theorem c8_mail_attempt_sequence_witness :
    send_mail_to_upstream exSmtpCfg exTryFallback =
      .ok (true, [(true, "smtp.gmail.com", 465), (false, "smtp.gmail.com", 587)]) := by
  have h := (c8_mail_attempt_sequence).1 exSmtpCfg exTryFallback rfl rfl rfl rfl rfl
  exact h.2.2.1 "timeout" rfl rfl

/-- C8 counterexample: with nothing pinned but credentials missing, the
function returns false without trying any attempt, even against a
transport that would deliver on every attempt — refuting that exactly
two attempts are tried and that a successful send yields true. -/
theorem c8_counterexample :
    send_mail_to_upstream exSmtpNoCreds (fun _ => AttemptOutcome.sent) = .ok (false, []) ∧
    mailAttempts exSmtpNoCreds =
      [(true, "smtp.gmail.com", 465), (false, "smtp.gmail.com", 587)] :=
  ⟨rfl, rfl⟩

example : is_safe_sql "SELECT * FROM order_header LIMIT 10" = true := by decide
example : is_safe_sql "  select 1" = true := by decide
example : is_safe_sql "SELECT * FROM t; DROP TABLE t" = false := by decide
example : is_safe_sql "SELECT * FROM DROP_ME" = true := by decide
example : is_safe_sql "drop table t" = false := by decide
example : is_safe_sql "SHOW TABLES" = false := by decide
example : is_safe_sql "" = false := by decide
example : detect_table "yes" = "order_header" := by decide
example : detect_table "stock of item X" = "sku JOIN inventory" := by decide
example : detect_table "warehouse zones" = "location" := by decide
example : detect_table "show me open orders" = "order_header" := by decide

end Bot
